import Mathlib

/-!
# Verification of the GenericToolbar filter/search subsystem

Shallow embedding of the filter toolbar of this repository:
* data model from `src/components/GenericToolbar/types.ts`
  (`FilterFieldType`, `FilterOperator`, `AvailableFilter`, `ActiveFilter`,
  `DEFAULT_OPERATORS`);
* the stateful toolbar event handlers from the `GenericToolbar` component
  (`handleFilterModeChange`, `handleSearchInputChange`, `handleSearchKeyDown`,
  `handleApplyFilters`, `handleAddFilter`, `handleRemoveFilter`,
  `handleFilterValueChange`, `handleOperatorChange`, `handleClearAllFilters`,
  the unmount cleanup effect and the derived `activeFilterCount`);
* the external controller from
  `src/components/GenericToolbar/useFilterController.ts`
  (`isActive`, `applyFilters`, `removeFilters`).

Handlers are modelled as pure functions from the component props and the
local React state to the new local state together with the list of parent
callbacks invoked during that synchronous event turn, in invocation order.
The single `setTimeout` debounce timer is modelled as an optional pending
search value in the state (`searchDebounce`); the timer elapsing is a
separate event (`debounceFire`).  Filter values (`value: any` in the
source) are modelled by the value shapes the `FilterFieldRenderer`
component actually produces and the handlers actually inspect: scalars
(string / number / boolean / null / undefined), arrays of scalars, and
`{from,to}` / `{min,max}` range objects with optional scalar fields.
`JSON.stringify` equality on such values is modelled by comparison after a
canonicalisation that reproduces `JSON.stringify`'s treatment of
`undefined` (omitted as an object property, `null` inside an array).
-/

namespace Spec2Proof

/-- The filter field types of `types.ts` (`FilterFieldType`). -/
inductive FilterFieldType
  | text
  | select
  | multiselect
  | date
  | checkbox
  | number
  | numberrange
  | boolean
deriving DecidableEq, Repr

/-- The filter operators of `types.ts` (`FilterOperator`): text operators
`regex`/`eq`, comparison operators, collection operators (`in` is `inOp`,
since `in` is reserved), boolean operators (`exists` is `existsOp`), and
date operators (`>=` is `geSym`, `<=` is `leSym`). -/
inductive FilterOperator
  | regex
  | eq
  | lt
  | lte
  | gt
  | gte
  | inOp
  | all
  | nin
  | existsOp
  | on
  | geSym
  | leSym
  | today
  | between
deriving DecidableEq, Repr

/-- An enumerated option of a select-like filter (`FilterOption`). -/
structure FilterOption where
  value : String
  label : String
deriving DecidableEq, Repr

/-- An operator together with its display label (`OperatorOption`). -/
structure OperatorOption where
  value : FilterOperator
  label : String
deriving DecidableEq, Repr

/-- A filter definition supplied by the parent page (`AvailableFilter`).
Optional TS fields become `Option`. -/
structure AvailableFilter where
  id : String
  label : String
  type : FilterFieldType
  options : Option (List FilterOption) := none
  placeholder : Option String := none
  operators : Option (List OperatorOption) := none
  defaultOperator : Option FilterOperator := none
deriving DecidableEq, Repr

/-- A scalar JavaScript value as produced by the filter field renderer. -/
inductive ScalarValue
  | str (s : String)
  | num (n : Int)
  | bool (b : Bool)
  | null
  | undef
deriving DecidableEq, Repr

/-- A filter value (`value: any` in `ActiveFilter`): a scalar, an array of
scalars (multiselect / select), or a range object with optional `from`,
`to`, `min`, `max` fields (date range / number range).  An absent object
field is `none`. -/
inductive FilterValue
  | scalar (v : ScalarValue)
  | arr (xs : List ScalarValue)
  | range (rFrom rTo rMin rMax : Option ScalarValue)
deriving DecidableEq, Repr

/-- One filter instance attached to the query (`ActiveFilter`).  The
`operator` is optional because `handleFilterModeChange` can store
`undefined` (cast to `FilterOperator`) when a filter definition enumerates
an empty operator list and sets no default. -/
structure ActiveFilter where
  id : String
  filterId : String
  operator : Option FilterOperator
  value : FilterValue
deriving DecidableEq, Repr

/-- Source `DEFAULT_OPERATORS` of `types.ts`: the default operator catalogue per
field type, in source order. -/
def DEFAULT_OPERATORS : FilterFieldType → List OperatorOption
  | .text =>
      [⟨.regex, "Contains"⟩, ⟨.eq, "Equals"⟩]
  | .number =>
      [⟨.eq, "Equals"⟩, ⟨.gt, "Greater than"⟩, ⟨.gte, "Greater or equal"⟩,
       ⟨.lt, "Less than"⟩, ⟨.lte, "Less or equal"⟩]
  | .numberrange =>
      [⟨.gte, "Between"⟩]
  | .select =>
      [⟨.eq, "Equals"⟩]
  | .multiselect =>
      [⟨.inOp, "Includes any"⟩, ⟨.all, "Includes all"⟩, ⟨.nin, "Excludes"⟩]
  | .boolean =>
      [⟨.eq, "Equals"⟩, ⟨.existsOp, "Exists"⟩]
  | .checkbox =>
      [⟨.eq, "Equals"⟩]
  | .date =>
      [⟨.today, "Today"⟩, ⟨.on, "On date"⟩, ⟨.geSym, "On or after"⟩,
       ⟨.leSym, "On or before"⟩, ⟨.between, "Between dates"⟩]

/-! ## JSON.stringify equality on filter values

The source compares pending and applied values with
`JSON.stringify(a) === JSON.stringify(b)`.  `JSON.stringify` maps
`undefined` inside an array to `null` and omits object properties whose
value is `undefined`; at top level `undefined` stringifies to `undefined`
(which is only `===`-equal to itself).  Canonicalising values accordingly
and comparing structurally reproduces that equality. -/

/-- In JSON, `JSON.stringify` renders `undefined` array elements as `null`. -/
def scalarCanonInArray : ScalarValue → ScalarValue
  | .undef => .null
  | v => v

/-- In JSON, `JSON.stringify` omits object properties whose value is `undefined`. -/
def canonField : Option ScalarValue → Option ScalarValue
  | none => none
  | some .undef => none
  | some v => some v

/-- Canonical form of a filter value under `JSON.stringify` equality. -/
def jsonCanon : FilterValue → FilterValue
  | .scalar v => .scalar v
  | .arr xs => .arr (xs.map scalarCanonInArray)
  | .range a b c d => .range (canonField a) (canonField b) (canonField c) (canonField d)

/-- The test `JSON.stringify(a) === JSON.stringify(b)` for two filter values. -/
def jsonEqVal (a b : FilterValue) : Bool :=
  jsonCanon a == jsonCanon b

/-- Canonical form of an `ActiveFilter` record under `JSON.stringify`. -/
def canonFilter (f : ActiveFilter) : ActiveFilter :=
  { f with value := jsonCanon f.value }

/-- The `JSON.stringify` equality of two `ActiveFilter` lists (used by
`hasUnappliedFilterChanges`). -/
def jsonEqFilters (xs ys : List ActiveFilter) : Bool :=
  xs.map canonFilter == ys.map canonFilter

/-! ## GenericToolbar state and event handlers -/

/-- The toolbar-wide filter mode flag. -/
inductive FilterMode
  | basic
  | advanced
deriving DecidableEq, Repr

/-- The props of `GenericToolbar` relevant to the filter/search logic
(parent-owned applied state and the filter catalogue). -/
structure ToolbarProps where
  searchValue : String
  availableFilters : List AvailableFilter
  activeFilters : List ActiveFilter
deriving DecidableEq, Repr

/-- The local React state of `GenericToolbar`: the filter mode, the pending
search text (`localSearchValue`), the pending filter list
(`pendingFilters`), and the outstanding search debounce timer
(`searchDebounceRef`), modelled as the value the timer will deliver, or
`none` when no timer is outstanding. -/
structure ToolbarState where
  filterMode : FilterMode
  localSearchValue : String
  pendingFilters : List ActiveFilter
  searchDebounce : Option String
deriving DecidableEq, Repr

/-- A parent callback invocation made by the toolbar. -/
inductive ToolbarCall
  | searchChange (value : String)
  | filtersChange (filters : List ActiveFilter)
deriving DecidableEq, Repr

/-- Is a callback invocation an `onFiltersChange` call? -/
def ToolbarCall.isFiltersChange : ToolbarCall → Bool
  | .filtersChange _ => true
  | _ => false

/-- Derived `hasUnappliedSearchChange`: `localSearchValue !== searchValue`. -/
def hasUnappliedSearchChange (props : ToolbarProps) (st : ToolbarState) : Bool :=
  st.localSearchValue != props.searchValue

/-- Derived `hasUnappliedFilterChanges`:
`JSON.stringify(pendingFilters) !== JSON.stringify(activeFilters || [])`. -/
def hasUnappliedFilterChanges (props : ToolbarProps) (st : ToolbarState) : Bool :=
  !(jsonEqFilters st.pendingFilters props.activeFilters)

/-- The operator-defaulting computation repeated at GenericToolbar lines
85-86 and 182-184: `filterDef.operators || DEFAULT_OPERATORS[filterDef.type]`,
then `filterDef.defaultOperator || operators[0]?.value` (operator strings
are always truthy, so `||` is `Option` fallback). -/
def defaultOperatorFor (d : AvailableFilter) : Option FilterOperator :=
  let operators := d.operators.getD (DEFAULT_OPERATORS d.type)
  match d.defaultOperator with
  | some op => some op
  | none => operators.head?.map OperatorOption.value

/-- Handler `handleFilterModeChange`: store the new mode; when it is `basic`, reset
every pending filter whose definition exists to that definition's default
operator (value untouched) and auto-apply the reset with one
`onFiltersChange` call. -/
def handleFilterModeChange (props : ToolbarProps) (st : ToolbarState)
    (mode : FilterMode) : ToolbarState × List ToolbarCall :=
  if mode = .basic then
    let updatedFilters := st.pendingFilters.map fun filter =>
      match props.availableFilters.find? (fun f => f.id == filter.filterId) with
      | none => filter
      | some filterDef => { filter with operator := defaultOperatorFor filterDef }
    ({ st with filterMode := mode, pendingFilters := updatedFilters },
     [.filtersChange updatedFilters])
  else
    ({ st with filterMode := mode }, [])

/-- Handler `handleSearchInputChange`: store the keystroke locally, clear any
existing debounce timer and schedule a new one that will deliver this
value after 800 ms.  No callback is invoked synchronously. -/
def handleSearchInputChange (st : ToolbarState) (value : String) :
    ToolbarState × List ToolbarCall :=
  ({ st with localSearchValue := value, searchDebounce := some value }, [])

/-- The debounce timer elapsing: deliver the scheduled value through
`onSearchChange` and retire the timer; a no-op if no timer is outstanding. -/
def debounceFire (st : ToolbarState) : ToolbarState × List ToolbarCall :=
  match st.searchDebounce with
  | some value => ({ st with searchDebounce := none }, [.searchChange value])
  | none => (st, [])

/-- Handler `handleSearchKeyDown`: on Enter, clear the debounce timer and apply the
local search value immediately. -/
def handleSearchKeyDown (st : ToolbarState) (key : String) :
    ToolbarState × List ToolbarCall :=
  if key = "Enter" then
    ({ st with searchDebounce := none }, [.searchChange st.localSearchValue])
  else
    (st, [])

/-- Handler `handleApplyFilters`: if the search changed, cancel the debounce timer
and apply it; then, if the filters changed, apply them — search callback
first, filters callback second. -/
def handleApplyFilters (props : ToolbarProps) (st : ToolbarState) :
    ToolbarState × List ToolbarCall :=
  let (st₁, searchCalls) :=
    if hasUnappliedSearchChange props st then
      ({ st with searchDebounce := none }, [ToolbarCall.searchChange st.localSearchValue])
    else
      (st, [])
  let filterCalls :=
    if hasUnappliedFilterChanges props st then
      [ToolbarCall.filtersChange st.pendingFilters]
    else
      []
  (st₁, searchCalls ++ filterCalls)

/-- The unmount cleanup effect: cancel any outstanding debounce timer;
no callback is invoked. -/
def unmountCleanup (st : ToolbarState) : ToolbarState × List ToolbarCall :=
  ({ st with searchDebounce := none }, [])

/-- Handler `handleAddFilter`: append a new pending filter with the definition's
default operator and an empty value; not auto-applied.  `now` stands for
`Date.now()`. -/
def handleAddFilter (props : ToolbarProps) (st : ToolbarState)
    (filterId : String) (now : Nat) : ToolbarState × List ToolbarCall :=
  if filterId = "" then (st, [])
  else
    match props.availableFilters.find? (fun f => f.id == filterId) with
    | none => (st, [])
    | some filterDef =>
        let newFilter : ActiveFilter :=
          { id := "filter-" ++ toString now
            filterId := filterId
            operator := defaultOperatorFor filterDef
            value := .scalar (.str "") }
        ({ st with pendingFilters := st.pendingFilters ++ [newFilter] }, [])

/-- Handler `handleRemoveFilter`: drop the filter with the given instance id from
the pending list and apply the removal immediately. -/
def handleRemoveFilter (st : ToolbarState) (filterId : String) :
    ToolbarState × List ToolbarCall :=
  let updatedFilters := st.pendingFilters.filter fun f => f.id != filterId
  ({ st with pendingFilters := updatedFilters }, [.filtersChange updatedFilters])

/-- Handler `handleFilterValueChange`: record the new value in the pending list;
for every filter type other than `text`, auto-apply the updated list at
once and, when an unapplied search edit exists, cancel the debounce timer
and flush the search as well (filters callback first, then search). -/
def handleFilterValueChange (props : ToolbarProps) (st : ToolbarState)
    (filterId : String) (value : FilterValue) (filterType : FilterFieldType) :
    ToolbarState × List ToolbarCall :=
  let updatedFilters := st.pendingFilters.map fun f =>
    if f.id == filterId then { f with value := value } else f
  let st₁ := { st with pendingFilters := updatedFilters }
  if filterType ≠ .text then
    if hasUnappliedSearchChange props st then
      ({ st₁ with searchDebounce := none },
       [.filtersChange updatedFilters, .searchChange st.localSearchValue])
    else
      (st₁, [.filtersChange updatedFilters])
  else
    (st₁, [])

/-- Handler `handleOperatorChange`: record the new operator (value retained) and
auto-apply the updated list; when an unapplied search edit exists, cancel
the debounce timer and flush the search as well (filters first, then
search). -/
def handleOperatorChange (props : ToolbarProps) (st : ToolbarState)
    (filterId : String) (operator : FilterOperator) :
    ToolbarState × List ToolbarCall :=
  let updatedFilters := st.pendingFilters.map fun f =>
    if f.id == filterId then { f with operator := some operator } else f
  let st₁ := { st with pendingFilters := updatedFilters }
  if hasUnappliedSearchChange props st then
    ({ st₁ with searchDebounce := none },
     [.filtersChange updatedFilters, .searchChange st.localSearchValue])
  else
    (st₁, [.filtersChange updatedFilters])

/-- Handler `handleClearAllFilters`: empty the pending filters and search text and
apply both at once (`onSearchChange('')` then `onFiltersChange([])`).  The
source does not clear the debounce timer here, so `searchDebounce` is left
untouched. -/
def handleClearAllFilters (st : ToolbarState) : ToolbarState × List ToolbarCall :=
  ({ st with pendingFilters := [], localSearchValue := "" },
   [.searchChange "", .filtersChange []])

/-! ## Derived active filter count -/

/-- JavaScript truthiness of a scalar value (used for the
`rangeValue.from || rangeValue.to || rangeValue.min || rangeValue.max`
test). -/
def scalarTruthy : ScalarValue → Bool
  | .str s => s != ""
  | .num n => n != 0
  | .bool b => b
  | .null => false
  | .undef => false

/-- Truthiness of an optional object field (absent means `undefined`). -/
def fieldTruthy : Option ScalarValue → Bool
  | none => false
  | some v => scalarTruthy v

/-- The per-filter predicate of `activeFilterCount`: `today` counts with no
value; otherwise `null`/`undefined`/`''` and empty arrays do not count;
range objects count iff some field is truthy; anything else counts. -/
def countsAsActive (f : ActiveFilter) : Bool :=
  if f.operator == some .today then true
  else match f.value with
    | .scalar .null => false
    | .scalar .undef => false
    | .scalar (.str s) => s != ""
    | .scalar (.num _) => true
    | .scalar (.bool _) => true
    | .arr xs => !xs.isEmpty
    | .range a b c d => fieldTruthy a || fieldTruthy b || fieldTruthy c || fieldTruthy d

/-- Derived `activeFilterCount`: how many applied filters carry a meaningful
value. -/
def activeFilterCount (activeFilters : List ActiveFilter) : Nat :=
  (activeFilters.filter countsAsActive).length

/-! ## useFilterController (external filter adapter)

`useFilterController` closes over `representedFilters` (the triples the
external component stands for) and the connection `{activeFilters,
onFilterChange}`.  `applyFilters`/`removeFilters` invoke `onFilterChange`
with one full replacement list; they are modelled as functions returning
that committed list. -/

/-- One represented `(filterId, operator, value)` triple
(`FilterControllerConfig.representedFilters`). -/
structure RepresentedFilter where
  filterId : String
  operator : FilterOperator
  value : FilterValue
deriving DecidableEq, Repr

/-- Controller operation `isActive` of `useFilterController`: some represented triple has an
applied filter with the same `filterId`, the same `operator`, and a
`JSON.stringify`-equal value. -/
def isActive (representedFilters : List RepresentedFilter)
    (activeFilters : List ActiveFilter) : Bool :=
  if representedFilters.isEmpty then false
  else
    representedFilters.any fun rf =>
      activeFilters.any fun af =>
        af.filterId == rf.filterId &&
        af.operator == some rf.operator &&
        jsonEqVal af.value rf.value

/-- The `${rf.value}` string interpolation used in the synthetic id:
JavaScript string conversion of the modelled value shapes (arrays join
their elements with commas, rendering `null`/`undefined` elements empty;
plain objects render as `[object Object]`). -/
def valueToString : FilterValue → String
  | .scalar (.str s) => s
  | .scalar (.num n) => toString n
  | .scalar (.bool b) => if b then "true" else "false"
  | .scalar .null => "null"
  | .scalar .undef => "undefined"
  | .arr xs => String.intercalate ","
      (xs.map fun v => match v with
        | .str s => s
        | .num n => toString n
        | .bool b => if b then "true" else "false"
        | .null => ""
        | .undef => "")
  | .range _ _ _ _ => "[object Object]"

/-- The set of filterIds a controller represents
(`new Set(representedFilters.map(rf => rf.filterId))`). -/
def representedIds (representedFilters : List RepresentedFilter) : List String :=
  representedFilters.map RepresentedFilter.filterId

/-- The arrow function inside `applyFilters` generating one fresh
`ActiveFilter` from an indexed represented triple, with the synthetic id
`` `${rf.filterId}-${rf.value}-${Date.now()}-${index}` `` (`now` stands for
`Date.now()`). -/
def freshFilter (now : Nat) : Nat × RepresentedFilter → ActiveFilter
  | (index, rf) =>
      { id := rf.filterId ++ "-" ++ valueToString rf.value ++ "-" ++
              toString now ++ "-" ++ toString index
        filterId := rf.filterId
        operator := some rf.operator
        value := rf.value }

/-- Controller operation `applyFilters` of `useFilterController`: drop every applied filter whose
`filterId` is represented, then append one freshly generated `ActiveFilter`
per represented triple, and commit the whole list.  Returns the list passed
to `onFilterChange`. -/
def applyFilters (representedFilters : List RepresentedFilter)
    (activeFilters : List ActiveFilter) (now : Nat) : List ActiveFilter :=
  let filterIds := representedIds representedFilters
  let otherFilters := activeFilters.filter fun af => !(filterIds.contains af.filterId)
  let newFilters := representedFilters.enum.map (freshFilter now)
  otherFilters ++ newFilters

/-- Controller operation `removeFilters` of `useFilterController`: keep exactly the applied
filters whose `filterId` is not represented, and commit that list. -/
def removeFilters (representedFilters : List RepresentedFilter)
    (activeFilters : List ActiveFilter) : List ActiveFilter :=
  let filterIds := representedIds representedFilters
  activeFilters.filter fun af => !(filterIds.contains af.filterId)

/-! ## Concrete fixtures used by counterexamples and witnesses -/

/-- A `text` filter definition. -/
def nameDef : AvailableFilter :=
  { id := "name", label := "Name", type := .text }

/-- A `number` filter definition. -/
def amountDef : AvailableFilter :=
  { id := "amount", label := "Amount", type := .number }

/-- A `select` filter definition. -/
def statusDef : AvailableFilter :=
  { id := "status", label := "Status", type := .select,
    options := some [⟨"open", "Open"⟩, ⟨"closed", "Closed"⟩] }

/-- Toolbar props with the three sample filter definitions, an empty
applied search and an empty applied filter list. -/
def sampleProps : ToolbarProps :=
  { searchValue := "", availableFilters := [nameDef, amountDef, statusDef],
    activeFilters := [] }

/-- A pending `number` filter instance on `amountDef`. -/
def amountPending : ActiveFilter :=
  ⟨"f1", "amount", some .eq, .scalar (.str "")⟩

/-- Toolbar state holding one pending `amount` filter, no pending search
edit, no outstanding timer. -/
def amountState : ToolbarState :=
  { filterMode := .advanced, localSearchValue := "",
    pendingFilters := [amountPending], searchDebounce := none }

/-- Toolbar state holding one pending `status` filter with a non-default
operator, a pending search edit `"abc"`, and an outstanding debounce
timer for `"abc"`. -/
def statusStateWithSearch : ToolbarState :=
  { filterMode := .advanced, localSearchValue := "abc",
    pendingFilters := [⟨"f2", "status", some .inOp, .arr [.str "open"]⟩],
    searchDebounce := some "abc" }

/-- Two represented triples sharing one `filterId`. -/
def dupReps : List RepresentedFilter :=
  [⟨"a", .eq, .scalar (.num 1)⟩, ⟨"a", .eq, .scalar (.num 2)⟩]

/-- Two represented triples with distinct `filterId`s. -/
def disjointReps : List RepresentedFilter :=
  [⟨"a", .eq, .scalar (.num 1)⟩, ⟨"b", .inOp, .arr [.str "x"]⟩]

/-! ## Claim theorems -/

/-- C1, counterexample: a value change on an active filter whose referenced
definition has type `number` invokes `onFiltersChange` in the same event
turn, with neither Enter nor Apply Filters involved — the handler defers
only the `text` type, so the claim fails for `number` (and `numberrange`). -/
theorem number_value_change_commits_immediately :
    (sampleProps.availableFilters.find? (fun f => f.id == "amount")).map AvailableFilter.type
      = some FilterFieldType.number ∧
    (handleFilterValueChange sampleProps amountState "f1" (.scalar (.num 5)) .number).2
      = [ToolbarCall.filtersChange [⟨"f1", "amount", some .eq, .scalar (.num 5)⟩]] := by
  decide

/-- C1, amended: a value change on a filter of type `text` never invokes a
parent callback; such edits commit only through `handleApplyFilters`
(reached by Enter in the field via `onEnterKey`, or the Apply Filters
button), which, whenever the pending filters differ from the applied ones,
makes exactly one `onFiltersChange` invocation carrying the full
accumulated pending filter list. -/
theorem text_filters_commit_only_on_explicit_apply :
    (∀ (props : ToolbarProps) (st : ToolbarState) (filterId : String) (value : FilterValue),
      (handleFilterValueChange props st filterId value .text).2 = []) ∧
    (∀ (props : ToolbarProps) (st : ToolbarState),
      hasUnappliedFilterChanges props st = true →
      ((handleApplyFilters props st).2.filter ToolbarCall.isFiltersChange)
        = [ToolbarCall.filtersChange st.pendingFilters]) := by
  constructor
  · intro props st filterId value
    simp [handleFilterValueChange]
  · intro props st h
    cases hs : hasUnappliedSearchChange props st <;>
      simp [handleApplyFilters, hs, h, ToolbarCall.isFiltersChange]

/-- C1, witness for the amended theorem at a concrete toolbar state. -/
theorem text_filters_commit_only_on_explicit_apply_witness :
    (handleFilterValueChange sampleProps amountState "f1" (.scalar (.str "x")) .text).2 = [] ∧
    hasUnappliedFilterChanges sampleProps amountState = true ∧
    ((handleApplyFilters sampleProps amountState).2.filter ToolbarCall.isFiltersChange)
      = [ToolbarCall.filtersChange amountState.pendingFilters] :=
  ⟨text_filters_commit_only_on_explicit_apply.1 sampleProps amountState "f1" (.scalar (.str "x")),
   by decide,
   text_filters_commit_only_on_explicit_apply.2 sampleProps amountState (by decide)⟩

/-- C2: for the filter types `select`, `multiselect`, `date`, `checkbox`
and `boolean`, a value change commits the updated pending filter list
through `onFiltersChange` in the same synchronous event turn, and an
operator change on any filter does likewise; in both cases, when an
unapplied search edit exists at that moment, `onSearchChange` is invoked
with the pending search value in the same turn. -/
theorem auto_commit_types_commit_synchronously :
    (∀ (props : ToolbarProps) (st : ToolbarState) (filterId : String) (value : FilterValue)
        (t : FilterFieldType),
      t ∈ [FilterFieldType.select, .multiselect, .date, .checkbox, .boolean] →
      (handleFilterValueChange props st filterId value t).2 =
        ToolbarCall.filtersChange
            (st.pendingFilters.map fun f =>
              if f.id == filterId then { f with value := value } else f) ::
          (if hasUnappliedSearchChange props st then
            [ToolbarCall.searchChange st.localSearchValue] else [])) ∧
    (∀ (props : ToolbarProps) (st : ToolbarState) (filterId : String) (op : FilterOperator),
      (handleOperatorChange props st filterId op).2 =
        ToolbarCall.filtersChange
            (st.pendingFilters.map fun f =>
              if f.id == filterId then { f with operator := some op } else f) ::
          (if hasUnappliedSearchChange props st then
            [ToolbarCall.searchChange st.localSearchValue] else [])) := by
  constructor
  · intro props st filterId value t ht
    fin_cases ht <;>
      cases hs : hasUnappliedSearchChange props st <;>
        simp [handleFilterValueChange, hs]
  · intro props st filterId op
    cases hs : hasUnappliedSearchChange props st <;>
      simp [handleOperatorChange, hs]

/-- C2, witness: a `select` value change with a pending search edit commits
both, synchronously. -/
theorem auto_commit_types_commit_synchronously_witness :
    (handleFilterValueChange sampleProps statusStateWithSearch "f2"
        (.arr [.str "open", .str "closed"]) .select).2
      = [ToolbarCall.filtersChange
           [⟨"f2", "status", some .inOp, .arr [.str "open", .str "closed"]⟩],
         ToolbarCall.searchChange "abc"] :=
  (auto_commit_types_commit_synchronously.1 sampleProps statusStateWithSearch "f2"
      (.arr [.str "open", .str "closed"]) .select (by decide)).trans (by decide)

/-- C3, counterexample: an auto-committing operator change made while a
pending search edit exists invokes `onFiltersChange` first and
`onSearchChange` second, so the claimed search-before-filters order fails
for auto-committing commits. -/
theorem auto_commit_orders_filters_before_search :
    (handleOperatorChange sampleProps statusStateWithSearch "f2" .all).2 =
      [ToolbarCall.filtersChange [⟨"f2", "status", some .all, .arr [.str "open"]⟩],
       ToolbarCall.searchChange "abc"] := by
  decide

/-- C3, amended: when an explicit Apply flushes both a pending search edit
and pending filter edits, `onSearchChange` is invoked before
`onFiltersChange`; but in the auto-committing paths (a non-`text` value
change or any operator change with a pending search edit) the order is
reversed: `onFiltersChange` first, then `onSearchChange`, within the same
synchronous turn. -/
theorem commit_callback_order :
    (∀ (props : ToolbarProps) (st : ToolbarState),
      hasUnappliedSearchChange props st = true →
      hasUnappliedFilterChanges props st = true →
      (handleApplyFilters props st).2 =
        [ToolbarCall.searchChange st.localSearchValue,
         ToolbarCall.filtersChange st.pendingFilters]) ∧
    (∀ (props : ToolbarProps) (st : ToolbarState) (filterId : String) (value : FilterValue)
        (t : FilterFieldType), t ≠ .text →
      hasUnappliedSearchChange props st = true →
      ∃ fs, (handleFilterValueChange props st filterId value t).2 =
        [ToolbarCall.filtersChange fs, ToolbarCall.searchChange st.localSearchValue]) ∧
    (∀ (props : ToolbarProps) (st : ToolbarState) (filterId : String) (op : FilterOperator),
      hasUnappliedSearchChange props st = true →
      ∃ fs, (handleOperatorChange props st filterId op).2 =
        [ToolbarCall.filtersChange fs, ToolbarCall.searchChange st.localSearchValue]) := by
  refine ⟨?_, ?_, ?_⟩
  · intro props st hs hf
    simp [handleApplyFilters, hs, hf]
  · intro props st filterId value t ht hs
    refine ⟨st.pendingFilters.map fun f =>
      if f.id == filterId then { f with value := value } else f, ?_⟩
    simp [handleFilterValueChange, ht, hs]
  · intro props st filterId op hs
    refine ⟨st.pendingFilters.map fun f =>
      if f.id == filterId then { f with operator := some op } else f, ?_⟩
    simp [handleOperatorChange, hs]

/-- C3, witness for the amended ordering at a concrete toolbar state. -/
theorem commit_callback_order_witness :
    (handleApplyFilters sampleProps statusStateWithSearch).2 =
      [ToolbarCall.searchChange statusStateWithSearch.localSearchValue,
       ToolbarCall.filtersChange statusStateWithSearch.pendingFilters] ∧
    (∃ fs, (handleFilterValueChange sampleProps statusStateWithSearch "f2"
        (.arr []) .multiselect).2 =
      [ToolbarCall.filtersChange fs,
       ToolbarCall.searchChange statusStateWithSearch.localSearchValue]) ∧
    (∃ fs, (handleOperatorChange sampleProps statusStateWithSearch "f2" .nin).2 =
      [ToolbarCall.filtersChange fs,
       ToolbarCall.searchChange statusStateWithSearch.localSearchValue]) :=
  ⟨commit_callback_order.1 sampleProps statusStateWithSearch (by decide) (by decide),
   commit_callback_order.2.1 sampleProps statusStateWithSearch "f2" (.arr [])
     .multiselect (by decide) (by decide),
   commit_callback_order.2.2 sampleProps statusStateWithSearch "f2" .nin (by decide)⟩

/-- C4: evaluation of the code at the failing input.  Clear-all with an
outstanding debounce timer (scheduled value `"abc"`) makes its two commit
calls but leaves the timer outstanding, and when the timer then elapses it
delivers `onSearchChange("abc")` — a stale value fired after the clear,
contradicting the claimed cancel-on-Clear-all behaviour. -/
theorem clear_all_leaves_debounce_timer_running :
    (handleClearAllFilters statusStateWithSearch).2 =
      [ToolbarCall.searchChange "", ToolbarCall.filtersChange []] ∧
    (handleClearAllFilters statusStateWithSearch).1.searchDebounce = some "abc" ∧
    (debounceFire (handleClearAllFilters statusStateWithSearch).1).2 =
      [ToolbarCall.searchChange "abc"] := by
  decide

/-- C5: clear-all, from any prior pending state, makes exactly two callback
invocations: `onSearchChange` with the empty string, then
`onFiltersChange` with the empty list. -/
theorem clear_all_emits_exactly_two_calls (st : ToolbarState) :
    (handleClearAllFilters st).2 =
      [ToolbarCall.searchChange "", ToolbarCall.filtersChange []] :=
  rfl

/-- C5, witness at a concrete pending state. -/
theorem clear_all_emits_exactly_two_calls_witness :
    (handleClearAllFilters statusStateWithSearch).2 =
      [ToolbarCall.searchChange "", ToolbarCall.filtersChange []] :=
  clear_all_emits_exactly_two_calls statusStateWithSearch

/-- C6: switching the filter mode to `basic` makes exactly one
`onFiltersChange` invocation, carrying the new pending list, and in that
list every filter whose definition exists has its operator reset to the
definition's default operator with its value (and identity) unchanged,
while filters without a definition are untouched. -/
theorem basic_mode_resets_operators_and_applies_once
    (props : ToolbarProps) (st : ToolbarState) :
    (handleFilterModeChange props st .basic).2 =
      [ToolbarCall.filtersChange (handleFilterModeChange props st .basic).1.pendingFilters] ∧
    ∀ (i : Nat) (f : ActiveFilter),
      st.pendingFilters[i]? = some f →
      (props.availableFilters.find? (fun x => x.id == f.filterId) = none →
        (handleFilterModeChange props st .basic).1.pendingFilters[i]? = some f) ∧
      (∀ d, props.availableFilters.find? (fun x => x.id == f.filterId) = some d →
        (handleFilterModeChange props st .basic).1.pendingFilters[i]? =
          some { f with operator := defaultOperatorFor d }) := by
  refine ⟨by simp [handleFilterModeChange], ?_⟩
  intro i f hf
  constructor
  · intro hnone
    simp [handleFilterModeChange, List.getElem?_map, hf, hnone]
  · intro d hd
    simp [handleFilterModeChange, List.getElem?_map, hf, hd]

/-- C6, witness: a pending `select` filter carrying the non-default
operator `in` is reset to the type default `eq` with its value intact, in
the single committed list. -/
theorem basic_mode_resets_operators_witness :
    (handleFilterModeChange sampleProps statusStateWithSearch .basic).2 =
      [ToolbarCall.filtersChange
        (handleFilterModeChange sampleProps statusStateWithSearch .basic).1.pendingFilters] ∧
    (handleFilterModeChange sampleProps statusStateWithSearch .basic).1.pendingFilters[0]? =
      some ⟨"f2", "status", some .eq, .arr [.str "open"]⟩ :=
  ⟨(basic_mode_resets_operators_and_applies_once sampleProps statusStateWithSearch).1,
   (((basic_mode_resets_operators_and_applies_once sampleProps statusStateWithSearch).2 0
       ⟨"f2", "status", some .inOp, .arr [.str "open"]⟩ (by decide)).2 statusDef
       (by decide)).trans (by decide)⟩

/-- C7: the active filter count counts exactly the applied filters with a
meaningful value: a `today` filter always counts; a non-`today` filter
whose value is the empty string, `null`, `undefined`, the empty array, or
a range object with no set field does not count.  On the applied list
`[{operator: today}, {value: two-quotes}, {value: [a]}]` the count is 2. -/
theorem active_filter_count_meaningful_values :
    (∀ (id fid : String) (v : FilterValue),
      countsAsActive ⟨id, fid, some .today, v⟩ = true) ∧
    (∀ (id fid : String) (op : Option FilterOperator),
      op ≠ some FilterOperator.today →
      countsAsActive ⟨id, fid, op, .scalar (.str "")⟩ = false ∧
      countsAsActive ⟨id, fid, op, .scalar .null⟩ = false ∧
      countsAsActive ⟨id, fid, op, .scalar .undef⟩ = false ∧
      countsAsActive ⟨id, fid, op, .arr []⟩ = false ∧
      countsAsActive ⟨id, fid, op, .range none none none none⟩ = false) ∧
    activeFilterCount
      [⟨"1", "a", some .today, .scalar .undef⟩,
       ⟨"2", "b", none, .scalar (.str "")⟩,
       ⟨"3", "c", none, .arr [.str "a"]⟩] = 2 := by
  refine ⟨?_, ?_, by decide⟩
  · intro id fid v
    simp [countsAsActive]
  · intro id fid op hop
    have h : (op == some FilterOperator.today) = false := beq_eq_false_iff_ne.mpr hop
    refine ⟨?_, ?_, ?_, ?_, ?_⟩ <;> simp [countsAsActive, h, fieldTruthy]

/-- C7, witness: the non-counting clauses instantiated at the operator
`eq`, together with the always-counting `today` clause. -/
theorem active_filter_count_meaningful_values_witness :
    countsAsActive ⟨"x", "y", some FilterOperator.today, .scalar (.str "")⟩ = true ∧
    countsAsActive ⟨"x", "y", some FilterOperator.eq, .scalar (.str "")⟩ = false :=
  ⟨active_filter_count_meaningful_values.1 "x" "y" (.scalar (.str "")),
   (active_filter_count_meaningful_values.2.1 "x" "y" (some .eq) (by decide)).1⟩

/-- C8: with a non-empty represented set, `applyFilters` followed by
recomputing `isActive` against the freshly committed list reports
`true`. -/
theorem apply_filters_then_is_active (reps : List RepresentedFilter)
    (active : List ActiveFilter) (now : Nat) (h : reps ≠ []) :
    isActive reps (applyFilters reps active now) = true := by
  cases reps with
  | nil => exact absurd rfl h
  | cons rf rest =>
    simp only [isActive, applyFilters, List.isEmpty_cons, Bool.false_eq_true,
      if_false, List.any_eq_true, List.any_append, List.enum_cons,
      List.map_cons, List.any_cons, Bool.or_eq_true]
    refine Or.inl (Or.inr (Or.inl ?_))
    simp [freshFilter, jsonEqVal]

/-- C8, witness at a concrete controller and starting list. -/
theorem apply_filters_then_is_active_witness :
    isActive disjointReps (applyFilters disjointReps [] 7) = true :=
  apply_filters_then_is_active disjointReps [] 7 (by decide)

/-- C9, counterexample: a controller representing two triples with the
same `filterId` commits a list containing two filters with that
`filterId`, so the at-most-one-per-filterId claim fails as stated. -/
theorem apply_filters_duplicate_represented_id_cex :
    "a" ∈ representedIds dupReps ∧
    ¬ ((applyFilters dupReps [] 0).countP (fun af => af.filterId == "a") ≤ 1) := by
  decide

/-- Counting a property of the items of `enumFrom` that ignores the
indices is counting it over the underlying list. -/
theorem countP_enumFrom_snd {α : Type} (p : α → Bool) :
    ∀ (l : List α) (n : Nat),
      (List.enumFrom n l).countP (fun x => p x.2) = l.countP p := by
  intro l
  induction l with
  | nil => intro n; rfl
  | cons a l ih =>
    intro n
    simp [List.countP_cons, ih]

/-- C9, amended: provided the represented triples carry pairwise distinct
`filterId`s, the list committed by `applyFilters` contains at most one
filter per `filterId` contributed by the controller: pre-existing filters
with represented ids are all removed and exactly one fresh filter is
appended per represented triple. -/
theorem apply_filters_at_most_one_per_represented_id
    (reps : List RepresentedFilter) (active : List ActiveFilter) (now : Nat)
    (h : (representedIds reps).Nodup) (fid : String)
    (hf : fid ∈ representedIds reps) :
    (applyFilters reps active now).countP (fun af => af.filterId == fid) ≤ 1 := by
  unfold applyFilters
  simp only [List.countP_append]
  have h1 : (active.filter fun af =>
      !((representedIds reps).contains af.filterId)).countP
        (fun af => af.filterId == fid) = 0 := by
    rw [List.countP_eq_zero]
    intro af haf
    rcases List.mem_filter.mp haf with ⟨-, hcont⟩
    simp only [beq_iff_eq]
    intro heq
    rw [heq] at hcont
    rw [List.contains_eq_any_beq] at hcont
    have : (representedIds reps).any (fid == ·) = true := by
      rw [List.any_eq_true]
      exact ⟨fid, hf, by simp⟩
    simp [this] at hcont
  have h2 : ((reps.enum.map (freshFilter now)).countP
      (fun af => af.filterId == fid)) = reps.countP (fun rf => rf.filterId == fid) := by
    rw [List.countP_map]
    have hg : ((fun af => af.filterId == fid) ∘ freshFilter now)
        = fun x : Nat × RepresentedFilter => x.2.filterId == fid := by
      funext x
      rcases x with ⟨i, rf⟩
      rfl
    rw [hg]
    exact countP_enumFrom_snd (fun rf => rf.filterId == fid) reps 0
  have h3 : reps.countP (fun rf => rf.filterId == fid) ≤ 1 := by
    have hcount := List.nodup_iff_count_le_one.mp h fid
    unfold representedIds at hcount
    rw [List.count_eq_countP, List.countP_map] at hcount
    exact hcount
  omega

/-- C9, witness for the amended theorem: a controller with two distinct
represented ids commits at most one filter for the id `a`. -/
theorem apply_filters_at_most_one_per_represented_id_witness :
    (applyFilters disjointReps [⟨"z", "a", some .eq, .scalar (.num 9)⟩] 3).countP
      (fun af => af.filterId == "a") ≤ 1 :=
  apply_filters_at_most_one_per_represented_id disjointReps
    [⟨"z", "a", some .eq, .scalar (.num 9)⟩] 3 (by decide) "a" (by decide)

/-- C10: every `onFiltersChange` invocation any toolbar handler makes
carries the complete new pending filter list (so an auto-committing action
also commits every other filter's buffered edits), and the handlers that
only touch the search input or add a filter never invoke
`onFiltersChange`. -/
theorem filters_change_carries_full_pending_list :
    (∀ (props : ToolbarProps) (st : ToolbarState) (filterId : String)
        (value : FilterValue) (t : FilterFieldType) (fs : List ActiveFilter),
      ToolbarCall.filtersChange fs ∈ (handleFilterValueChange props st filterId value t).2 →
      fs = (handleFilterValueChange props st filterId value t).1.pendingFilters) ∧
    (∀ (props : ToolbarProps) (st : ToolbarState) (filterId : String)
        (op : FilterOperator) (fs : List ActiveFilter),
      ToolbarCall.filtersChange fs ∈ (handleOperatorChange props st filterId op).2 →
      fs = (handleOperatorChange props st filterId op).1.pendingFilters) ∧
    (∀ (st : ToolbarState) (filterId : String) (fs : List ActiveFilter),
      ToolbarCall.filtersChange fs ∈ (handleRemoveFilter st filterId).2 →
      fs = (handleRemoveFilter st filterId).1.pendingFilters) ∧
    (∀ (props : ToolbarProps) (st : ToolbarState) (fs : List ActiveFilter),
      ToolbarCall.filtersChange fs ∈ (handleApplyFilters props st).2 →
      fs = (handleApplyFilters props st).1.pendingFilters) ∧
    (∀ (st : ToolbarState) (fs : List ActiveFilter),
      ToolbarCall.filtersChange fs ∈ (handleClearAllFilters st).2 →
      fs = (handleClearAllFilters st).1.pendingFilters) ∧
    (∀ (props : ToolbarProps) (st : ToolbarState) (mode : FilterMode)
        (fs : List ActiveFilter),
      ToolbarCall.filtersChange fs ∈ (handleFilterModeChange props st mode).2 →
      fs = (handleFilterModeChange props st mode).1.pendingFilters) ∧
    (∀ (props : ToolbarProps) (st : ToolbarState) (filterId : String) (now : Nat)
        (fs : List ActiveFilter),
      ToolbarCall.filtersChange fs ∉ (handleAddFilter props st filterId now).2) ∧
    (∀ (st : ToolbarState) (value : String) (fs : List ActiveFilter),
      ToolbarCall.filtersChange fs ∉ (handleSearchInputChange st value).2) ∧
    (∀ (st : ToolbarState) (key : String) (fs : List ActiveFilter),
      ToolbarCall.filtersChange fs ∉ (handleSearchKeyDown st key).2) ∧
    (∀ (st : ToolbarState) (fs : List ActiveFilter),
      ToolbarCall.filtersChange fs ∉ (debounceFire st).2) := by
  refine ⟨?_, ?_, ?_, ?_, ?_, ?_, ?_, ?_, ?_, ?_⟩
  · intro props st filterId value t fs hmem
    by_cases ht : t = FilterFieldType.text
    · subst ht
      simp [handleFilterValueChange] at hmem
    · cases hs : hasUnappliedSearchChange props st <;>
        · simp [handleFilterValueChange, ht, hs] at hmem ⊢
          exact hmem
  · intro props st filterId op fs hmem
    cases hs : hasUnappliedSearchChange props st <;>
      · simp [handleOperatorChange, hs] at hmem ⊢
        exact hmem
  · intro st filterId fs hmem
    simp [handleRemoveFilter] at hmem ⊢
    exact hmem
  · intro props st fs hmem
    cases hs : hasUnappliedSearchChange props st <;>
      cases hfc : hasUnappliedFilterChanges props st <;>
        simp [handleApplyFilters, hs, hfc] at hmem ⊢ <;>
          exact hmem
  · intro st fs hmem
    simp [handleClearAllFilters] at hmem ⊢
    exact hmem
  · intro props st mode fs hmem
    cases mode with
    | basic =>
      simp [handleFilterModeChange] at hmem ⊢
      exact hmem
    | advanced =>
      simp [handleFilterModeChange] at hmem
  · intro props st filterId now fs
    unfold handleAddFilter
    split
    · simp
    · cases hfind : props.availableFilters.find? (fun f => f.id == filterId) <;> simp [hfind]
  · intro st value fs
    simp [handleSearchInputChange]
  · intro st key fs
    by_cases hk : key = "Enter" <;> simp [handleSearchKeyDown, hk]
  · intro st fs
    cases hd : st.searchDebounce <;> simp [debounceFire, hd]

/-- C10, witness: removing one filter commits the complete remaining
pending list. -/
theorem filters_change_carries_full_pending_list_witness :
    ([] : List ActiveFilter) =
      (handleRemoveFilter statusStateWithSearch "f2").1.pendingFilters :=
  filters_change_carries_full_pending_list.2.2.1 statusStateWithSearch "f2" []
    (by decide)

end Spec2Proof
